import Mathlib

/-!
Shallow embedding of the upload-orchestration, cache-management and
configuration logic of `video_slice_uploader.py` (class VideoSliceUploader),
together with theorems checking the specification's claims about it.

Conventions of the embedding:
* Python strings are Lean `String`s; a Python truthiness test on a string
  (`all([a, b, c])`) is the test that each string is nonempty.
* Filesystem listings (`os.listdir`) are `List String` parameters.
* Network effects are parameters: the per-attempt outcome of a transfer call
  is a function `Nat → _` (1-indexed attempt number), and the success of
  `connect` / `create_remote_directory` / `os.makedirs` is a `Bool` parameter.
-/

/-- Character-list prefix test (auxiliary for the string operations below). -/
def charListPrefix (pat s : List Char) : Bool :=
  match pat, s with
  | [], _ => true
  | _ :: _, [] => false
  | a :: as, b :: bs => a == b && charListPrefix as bs

/-- Character-list infix test (auxiliary for `strContains`). -/
def charListInfix (pat s : List Char) : Bool :=
  match s with
  | [] => charListPrefix pat []
  | _ :: rest => charListPrefix pat s || charListInfix pat rest

/-- Python `pat in s` (substring test). -/
def strContains (s pat : String) : Bool :=
  charListInfix pat.toList s.toList

/-- Python `s.endswith(suffix)`. -/
def pyEndsWith (s suffix : String) : Bool :=
  charListPrefix suffix.toList.reverse s.toList.reverse

/-- Python `s.strip('/')`: remove `'/'` characters from both ends. -/
def pyStripSlash (s : String) : String :=
  String.mk (((s.toList.dropWhile (fun c => c == '/')).reverse.dropWhile
    (fun c => c == '/')).reverse)

/-- Python `s.rstrip('/')`: remove `'/'` characters from the right end. -/
def pyRStripSlash (s : String) : String :=
  String.mk ((s.toList.reverse.dropWhile (fun c => c == '/')).reverse)

/-- The file filter used throughout the source:
`filename.endswith(('.ts', '.m3u8'))`. -/
def eligibleFile (f : String) : Bool :=
  pyEndsWith f ".ts" || pyEndsWith f ".m3u8"

/-- Qiniu credentials as read from the three entry fields
(`qiniu_access_key`, `qiniu_secret_key`, `qiniu_bucket_name`). -/
structure QiniuConfig where
  accessKey : String
  secretKey : String
  bucketName : String
deriving Repr, DecidableEq

/-- The completeness check `all([access_key, secret_key, bucket_name])`:
in Python each string is truthy exactly when nonempty. -/
def qiniuConfigComplete (c : QiniuConfig) : Bool :=
  (c.accessKey != "") && (c.secretKey != "") && (c.bucketName != "")

/-- Per-file retry loop of `upload_to_qiniu` (lines 1086-1132):
`for attempt in range(1, max_retries + 1)` with `max_retries = 3`.
`oc attempt = true` models `ret and ret['key'] == key` (upload succeeded);
both failure branches (bad `ret` / exception) sleep and go to the next
attempt.  Returns (succeeded, number of attempts made). -/
def qiniuTryFileAux (oc : Nat → Bool) (attempt remaining : Nat) : Bool × Nat :=
  match remaining with
  | 0 => (false, attempt - 1)
  | r + 1 => if oc attempt then (true, attempt) else qiniuTryFileAux oc (attempt + 1) r

/-- `qiniuTryFileAux` started at attempt 1 with `max_retries = 3`. -/
def qiniuTryFile (oc : Nat → Bool) : Bool × Nat :=
  qiniuTryFileAux oc 1 3

/-- Outcome of one `ftp.storbinary` attempt in `upload_to_ftp`:
either it returns, or it raises an exception whose `str()` is `msg`. -/
inductive FtpAttempt where
  | ok : FtpAttempt
  | err (msg : String) : FtpAttempt
deriving Repr, DecidableEq

/-- Per-file retry loop of `upload_to_ftp` (lines 1191-1312):
`for attempt in range(1, max_retries + 1)` with `max_retries = 3`.
An error whose message contains `"10060"` sleeps 5s and retries; an error
containing `"553"` runs the diagnostic directory-rebuild and then `break`s;
any other error logs and `break`s.  Returns (succeeded, attempts made). -/
def ftpTryFileAux (oc : Nat → FtpAttempt) (attempt remaining : Nat) : Bool × Nat :=
  match remaining with
  | 0 => (false, attempt - 1)
  | r + 1 =>
    match oc attempt with
    | .ok => (true, attempt)
    | .err m =>
      if strContains m "10060" then ftpTryFileAux oc (attempt + 1) r
      else (false, attempt)

/-- `ftpTryFileAux` started at attempt 1 with `max_retries = 3`. -/
def ftpTryFile (oc : Nat → FtpAttempt) : Bool × Nat :=
  ftpTryFileAux oc 1 3

/-- Record of one file's upload inside `upload_to_qiniu`:
its name, the storage key `f"{video_name}/{filename}"` built for it,
how many `put_file_v2` attempts were made, and whether it succeeded. -/
structure QAttempt where
  file : String
  key : String
  tries : Nat
  succeeded : Bool
deriving Repr, DecidableEq

/-- Result of one `upload_to_qiniu` call: the returned boolean, the final
values of the `files_uploaded` and `total_files` counters, and the per-file
transfer records (empty when the function returns before the upload loop). -/
structure QiniuRun where
  ok : Bool
  filesUploaded : Nat
  totalFiles : Nat
  attempts : List QAttempt
deriving Repr, DecidableEq

/-- The return value computed at lines 1134-1140 of `upload_to_qiniu`:
`return True` if `files_uploaded == total_files`, else
`return files_uploaded > 0`. -/
def qiniuJobResult (filesUploaded totalFiles : Nat) : Bool :=
  if filesUploaded == totalFiles then true else decide (filesUploaded > 0)

/-- `upload_to_qiniu(output_dir, playlist_file)` (lines 1051-1144).
`sdkAvailable` models `QINIU_AVAILABLE`; `videoName` is
`os.path.basename(output_dir)`; `files` is `os.listdir(output_dir)`;
`oc f n` is the outcome of attempt `n` for file `f`.  Returns before the
upload loop (with no transfer calls) when the SDK is unavailable or the
configuration is incomplete. -/
def upload_to_qiniu (sdkAvailable : Bool) (cfg : QiniuConfig) (videoName : String)
    (files : List String) (oc : String → Nat → Bool) : QiniuRun :=
  if !sdkAvailable then ⟨false, 0, 0, []⟩
  else if !(qiniuConfigComplete cfg) then ⟨false, 0, 0, []⟩
  else
    let eligible := files.filter eligibleFile
    let attempts := eligible.map (fun f =>
      let r := qiniuTryFile (oc f)
      { file := f, key := videoName ++ "/" ++ f, tries := r.2, succeeded := r.1 })
    let filesUploaded := (attempts.filter (fun a => a.succeeded)).length
    { ok := qiniuJobResult filesUploaded eligible.length
      filesUploaded := filesUploaded
      totalFiles := eligible.length
      attempts := attempts }

/-- Remote directory computation of `upload_to_ftp` (lines 1158-1165):
`upload_path = self.upload_path.get().strip('/')`;
if it is `''`, `'.'` or `'v'` the remote directory is just the video name,
otherwise `upload_path + '/' + video_name`. -/
def ftpRemoteDir (uploadPath videoName : String) : String :=
  let p := pyStripSlash uploadPath
  if p == "" || p == "." || p == "v" then videoName else p ++ "/" ++ videoName

/-- Remote file name computation of `upload_to_ftp` (lines 1179-1189):
if `ftp.pwd().rstrip('/')` equals `remote_dir.rstrip('/')` only the file
name is used, otherwise `remote_dir + '/' + filename`. -/
def ftpRemoteFile (ftpPwd remoteDir filename : String) : String :=
  if pyRStripSlash ftpPwd == pyRStripSlash remoteDir then filename
  else remoteDir ++ "/" ++ filename

/-- Record of one file's upload inside `upload_to_ftp`. -/
structure FAttempt where
  file : String
  remoteFile : String
  tries : Nat
  succeeded : Bool
deriving Repr, DecidableEq

/-- Result of one `upload_to_ftp` call: the returned boolean, the final
counters, the remote directory that was computed (`none` when `connect_ftp`
failed before it was computed), and the per-file transfer records. -/
structure FtpRun where
  ok : Bool
  filesUploaded : Nat
  totalFiles : Nat
  remoteDir : Option String
  attempts : List FAttempt
deriving Repr, DecidableEq

/-- `upload_to_ftp(output_dir, playlist_file)` (lines 1146-1326).
`connectOk` models `connect_ftp()` returning a session rather than `None`;
`mkdirOk` models `create_remote_directory` returning `True`; `ftpPwd` is
the value of `ftp.pwd()` during the loop.  After the loop the function runs
`ftp.quit()` and then `return True` unconditionally, regardless of how many
files were uploaded. -/
def upload_to_ftp (connectOk mkdirOk : Bool) (uploadPath videoName ftpPwd : String)
    (files : List String) (oc : String → Nat → FtpAttempt) : FtpRun :=
  if !connectOk then ⟨false, 0, 0, none, []⟩
  else
    let remoteDir := ftpRemoteDir uploadPath videoName
    if !mkdirOk then ⟨false, 0, 0, some remoteDir, []⟩
    else
      let eligible := files.filter eligibleFile
      let attempts := eligible.map (fun f =>
        let r := ftpTryFile (oc f)
        { file := f, remoteFile := ftpRemoteFile ftpPwd remoteDir f
          tries := r.2, succeeded := r.1 })
      let filesUploaded := (attempts.filter (fun a => a.succeeded)).length
      { ok := true
        filesUploaded := filesUploaded
        totalFiles := eligible.length
        remoteDir := some remoteDir
        attempts := attempts }

/-- One immediate subdirectory of the cache root: its name and the file
names it contains (`os.listdir` of it). -/
structure CacheDir where
  name : String
  files : List String
deriving Repr, DecidableEq

/-- `[f for f in os.listdir(item_path) if f.endswith('.ts')]` is nonempty. -/
def dirHasTs (d : CacheDir) : Bool :=
  !(d.files.filter (fun f => pyEndsWith f ".ts")).isEmpty

/-- `[f for f in os.listdir(item_path) if f.endswith('.m3u8')]` is nonempty. -/
def dirHasM3u8 (d : CacheDir) : Bool :=
  !(d.files.filter (fun f => pyEndsWith f ".m3u8")).isEmpty

/-- The cache scan shared by `update_cache_status` (lines 1432-1449) and
`process_reupload` (lines 1572-1581): an immediate subdirectory of the cache
root is listed exactly when `ts_files and m3u8_files` is truthy, i.e. it has
at least one `.ts` file and at least one `.m3u8` file. -/
def scanCache (root : List CacheDir) : List String :=
  (root.filter (fun d => dirHasTs d && dirHasM3u8 d)).map (fun d => d.name)

/-- `validate_cache_directory(directory)` (lines 1540-1548):
`len(ts_files) > 0 and len(m3u8_files) > 0` for an existing directory. -/
def validate_cache_directory (isDir : Bool) (files : List String) : Bool :=
  isDir && decide ((files.filter (fun f => pyEndsWith f ".ts")).length > 0)
    && decide ((files.filter (fun f => pyEndsWith f ".m3u8")).length > 0)

/-- `cleanup_local_files(output_dir)` (lines 1339-1351): every file in the
job directory is removed and then the directory itself, so the cache root
no longer has an entry of that name. -/
def cleanup_local_files (root : List CacheDir) (jobName : String) : List CacheDir :=
  root.filter (fun d => d.name != jobName)

/-- The caller policy in `process_video` (lines 845-864):
`if self.upload_to_server(...): self.cleanup_local_files(output_dir)` —
cleanup runs exactly when the upload call returned a truthy value. -/
def cleanupInvoked (uploadOk : Bool) : Bool := uploadOk

/-- Effect of `process_video`'s post-upload branch on the cache root:
on a truthy upload result the job directory is cleaned up, otherwise the
directory is left in place (and only the status display is refreshed). -/
def processVideoCleanupStep (root : List CacheDir) (jobName : String)
    (uploadOk : Bool) : List CacheDir :=
  if uploadOk then cleanup_local_files root jobName else root

/-- `set_default_cache_path()` (lines 1353-1366).  `appDataOk` models the
`try` block succeeding (the per-user `AppData` cache directory exists or
`os.makedirs` creates it); on any failure the bare `except:` falls back to
`os.getcwd() + "/cache"`, but that branch's own `os.makedirs` call
(modelled by `cwdOk`) is not wrapped in a further handler, so its failure
escapes the function. -/
def set_default_cache_path (home cwd : String) (appDataOk cwdOk : Bool) :
    Except String String :=
  if appDataOk then .ok (home ++ "/AppData/Local/VideoSliceUploader/Cache")
  else if cwdOk then .ok (cwd ++ "/cache")
  else .error "os.makedirs failed in fallback"

/-- The loop condition of the keep-alive thread spawned in `connect_ftp`
(lines 694-701): the body is `while True: time.sleep(30); keep_alive()`.
The condition is the literal constant `True`; it consults no cancellation
flag and no session state, so the daemon thread keeps iterating after the
session's `ftp.quit()`. -/
def ftpKeepAliveLoopCondition (_sessionOpen : Bool) : Bool := true

/-- Number of NOOP attempts issued by the keep-alive thread over its first
`n` iterations, given which iterations fall inside an open session: one
attempt per iteration, unconditionally, because the loop never exits
(errors inside `keep_alive` are swallowed by its bare `except: pass`). -/
def keepAliveNoopCount (sessionOpenAt : Nat → Bool) (n : Nat) : Nat :=
  (List.range n).countP (fun i => ftpKeepAliveLoopCondition (sessionOpenAt i))

/-- The in-memory configuration fields touched by `load_config`
(tkinter variables of the application object). -/
structure ConfigState where
  useQiniu : Bool
  segmentDuration : String
  qualityCrf : String
  cachePath : String
  serverIp : String
  serverPort : String
  username : String
  password : String
  uploadPath : String
  useSsl : Bool
  qiniuAccessKey : String
  qiniuSecretKey : String
  qiniuBucketName : String
  qiniuDomain : String
deriving Repr, DecidableEq

/-- A parsed configuration document: each field is `some v` when its key is
present in the JSON object and `none` when absent. -/
structure ConfigDoc where
  storage_type : Option String
  segment_duration : Option String
  quality_crf : Option String
  cache_path : Option String
  server_ip : Option String
  server_port : Option String
  username : Option String
  password : Option String
  upload_path : Option String
  use_ssl : Option Bool
  qiniu_access_key : Option String
  qiniu_secret_key : Option String
  qiniu_bucket_name : Option String
  qiniu_domain : Option String
deriving Repr, DecidableEq

/-- What `load_config` finds at `self.config_file`: no file, a file that is
not valid JSON (or unreadable), or a parsed document. -/
inductive ConfigSource where
  | missing : ConfigSource
  | malformed : ConfigSource
  | doc (d : ConfigDoc) : ConfigSource

/-- `load_config()` (lines 1748-1834).  Returns the new field values and
whether an error was reported (`True` for the `json.JSONDecodeError` /
generic exception handlers; the missing-file case only shows a warning).
The storage type is `config_data.get("storage_type", "ftp")`; every other
field is assigned only under `if "key" in config_data`, and the FTP block
runs only when the loaded storage type is not qiniu, the qiniu block only
when it is. -/
def load_config (st : ConfigState) (src : ConfigSource) : ConfigState × Bool :=
  match src with
  | .missing => (st, false)
  | .malformed => (st, true)
  | .doc d =>
    let useQ := d.storage_type.getD "ftp" == "qiniu"
    let st1 : ConfigState :=
      { st with
        useQiniu := useQ
        segmentDuration := d.segment_duration.getD st.segmentDuration
        qualityCrf := d.quality_crf.getD st.qualityCrf
        cachePath := d.cache_path.getD st.cachePath }
    let st2 : ConfigState :=
      if !useQ then
        { st1 with
          serverIp := d.server_ip.getD st1.serverIp
          serverPort := d.server_port.getD st1.serverPort
          username := d.username.getD st1.username
          password := d.password.getD st1.password
          uploadPath := d.upload_path.getD st1.uploadPath
          useSsl := d.use_ssl.getD st1.useSsl }
      else st1
    let st3 : ConfigState :=
      if useQ then
        { st2 with
          qiniuAccessKey := d.qiniu_access_key.getD st2.qiniuAccessKey
          qiniuSecretKey := d.qiniu_secret_key.getD st2.qiniuSecretKey
          qiniuBucketName := d.qiniu_bucket_name.getD st2.qiniuBucketName
          qiniuDomain := d.qiniu_domain.getD st2.qiniuDomain }
      else st2
    (st3, false)

/-- Sample in-memory configuration used in concrete instances below. -/
def sampleState : ConfigState :=
  { useQiniu := true
    segmentDuration := "10", qualityCrf := "23", cachePath := "/tmp/cache"
    serverIp := "203.0.113.5", serverPort := "21", username := "u"
    password := "p", uploadPath := "v", useSsl := false
    qiniuAccessKey := "AK", qiniuSecretKey := "SK"
    qiniuBucketName := "bucket", qiniuDomain := "" }

/-- Sample document with every key absent. -/
def emptyDoc : ConfigDoc :=
  { storage_type := none, segment_duration := none, quality_crf := none
    cache_path := none, server_ip := none, server_port := none
    username := none, password := none, upload_path := none, use_ssl := none
    qiniu_access_key := none, qiniu_secret_key := none
    qiniu_bucket_name := none, qiniu_domain := none }

theorem qiniuJobResult_iff (u t : Nat) :
    qiniuJobResult u t = true ↔ (t = 0 ∨ 0 < u) := by
  unfold qiniuJobResult
  split
  · rename_i heq
    simp at heq
    simp
    omega
  · rename_i hne
    simp at hne
    simp only [decide_eq_true_eq]
    omega

theorem upload_to_qiniu_counts (cfg : QiniuConfig) (v : String)
    (files : List String) (oc : String → Nat → Bool)
    (h : qiniuConfigComplete cfg = true) :
    (upload_to_qiniu true cfg v files oc).ok =
        qiniuJobResult (upload_to_qiniu true cfg v files oc).filesUploaded
          (upload_to_qiniu true cfg v files oc).totalFiles := by
  simp [upload_to_qiniu, h]

/-- Claim C1 (counterexample): with the Qiniu backend, a job with two
eligible files of which exactly one uploads (the other failing all three
attempts) yields `files_uploaded = 1 < total_files = 2` — a
`PartialFailure` under the spec's status law — yet `upload_to_qiniu`
returns the truthy full-success outcome `True`, contradicting the claim
that a truthy outcome occurs only when all attempted files succeeded. -/
theorem upload_result_truthy_on_partial_failure :
    (upload_to_qiniu true ⟨"ak", "sk", "bkt"⟩ "movie_20240101_120000"
        ["a.ts", "b.ts"] (fun f _ => f == "a.ts")).ok = true
      ∧ (upload_to_qiniu true ⟨"ak", "sk", "bkt"⟩ "movie_20240101_120000"
        ["a.ts", "b.ts"] (fun f _ => f == "a.ts")).filesUploaded = 1
      ∧ (upload_to_qiniu true ⟨"ak", "sk", "bkt"⟩ "movie_20240101_120000"
        ["a.ts", "b.ts"] (fun f _ => f == "a.ts")).totalFiles = 2 := by
  decide

/-- Claim C1 (amended): the actual job-level law of the code.  For the
object-storage backend (with SDK available and complete credentials),
`upload_to_qiniu` returns `True` iff no file was eligible or at least one
file succeeded — so it is truthy on `PartialFailure` as well, and falsy
exactly when zero files succeeded out of at least one attempted.  For the
directory-server backend, `upload_to_ftp` returns `True` iff `connect_ftp`
and `create_remote_directory` succeeded, regardless of per-file outcomes. -/
theorem upload_result_truthiness_law (cfg : QiniuConfig) (v : String)
    (files : List String) (oc : String → Nat → Bool)
    (h : qiniuConfigComplete cfg = true)
    (connectOk mkdirOk : Bool) (up jn pwd : String)
    (files2 : List String) (ocF : String → Nat → FtpAttempt) :
    ((upload_to_qiniu true cfg v files oc).ok = true ↔
      ((upload_to_qiniu true cfg v files oc).totalFiles = 0 ∨
        0 < (upload_to_qiniu true cfg v files oc).filesUploaded))
    ∧ ((upload_to_ftp connectOk mkdirOk up jn pwd files2 ocF).ok = true ↔
      (connectOk = true ∧ mkdirOk = true)) := by
  constructor
  · rw [upload_to_qiniu_counts cfg v files oc h]
    exact qiniuJobResult_iff _ _
  · cases connectOk <;> cases mkdirOk <;> simp [upload_to_ftp]

/-- Claim C1 (witness): the amended law evaluated at a concrete input. -/
theorem upload_result_truthiness_law_witness :
    (upload_to_qiniu true ⟨"ak", "sk", "bkt"⟩ "job" ["a.ts"]
      (fun _ _ => true)).ok = true :=
  ((upload_result_truthiness_law ⟨"ak", "sk", "bkt"⟩ "job" ["a.ts"]
      (fun _ _ => true) (by decide) true true "v" "job" "/" [] (fun _ _ => .ok)).1).mpr
    (Or.inr (by decide))

/-- Claim C2 (counterexample): cleanup is keyed on the truthy return of the
upload call, not on `Success`.  The same partial-failure run as in the C1
counterexample (1 of 2 files uploaded) returns `True`, so `process_video`
invokes `cleanup_local_files` even though the job's result under the spec's
status law is `PartialFailure`, contradicting "cleanup is invoked if and
only if the job's upload result is Success". -/
theorem cleanup_invoked_on_partial_failure :
    cleanupInvoked (upload_to_qiniu true ⟨"ak", "sk", "bkt"⟩
        "movie_20240101_120000" ["a.ts", "b.ts"] (fun f _ => f == "a.ts")).ok = true
      ∧ (upload_to_qiniu true ⟨"ak", "sk", "bkt"⟩ "movie_20240101_120000"
        ["a.ts", "b.ts"] (fun f _ => f == "a.ts")).filesUploaded = 1
      ∧ (upload_to_qiniu true ⟨"ak", "sk", "bkt"⟩ "movie_20240101_120000"
        ["a.ts", "b.ts"] (fun f _ => f == "a.ts")).totalFiles = 2 := by
  decide

/-- Claim C2 (amended): in `process_video`, `cleanup_local_files` is invoked
if and only if the upload call returned a truthy value (which, by the C1
law, also covers partial failures of the Qiniu backend and any FTP run whose
connection and directory creation succeeded); on a falsy result the job
directory is left intact; and after a cleanup the job directory no longer
appears in a subsequent cache scan. -/
theorem cleanup_follows_truthy_result (root : List CacheDir) (jobName : String)
    (uploadOk : Bool) :
    (cleanupInvoked uploadOk = uploadOk)
    ∧ (uploadOk = false → processVideoCleanupStep root jobName uploadOk = root)
    ∧ (jobName ∈ scanCache (processVideoCleanupStep root jobName true) → False) := by
  refine ⟨rfl, fun h => by simp [processVideoCleanupStep, h], fun hmem => ?_⟩
  simp only [processVideoCleanupStep, if_true, cleanup_local_files, scanCache,
    List.mem_map, List.mem_filter] at hmem
  obtain ⟨d, ⟨⟨hdroot, hne⟩, hflag⟩, hname⟩ := hmem
  rw [hname] at hne
  simp at hne

/-- Claim C2 (witness): the amended law evaluated at a concrete input. -/
theorem cleanup_follows_truthy_result_witness :
    processVideoCleanupStep [⟨"job", ["a.ts", "p.m3u8"]⟩] "job" false =
        [⟨"job", ["a.ts", "p.m3u8"]⟩]
      ∧ ("job" ∈ scanCache (processVideoCleanupStep
          [⟨"job", ["a.ts", "p.m3u8"]⟩] "job" true) → False) :=
  ⟨(cleanup_follows_truthy_result [⟨"job", ["a.ts", "p.m3u8"]⟩] "job" false).2.1 rfl,
    (cleanup_follows_truthy_result [⟨"job", ["a.ts", "p.m3u8"]⟩] "job" true).2.2⟩

/-- Claim C3 (confirmed): retry bounds.  (a) A Qiniu file whose every
`put_file_v2` attempt fails is attempted exactly 3 times and marked failed;
(b) an FTP file whose every `storbinary` attempt raises a transient error
(message containing the timeout code `10060`) is attempted exactly 3 times
and marked failed; (c) an FTP file whose first attempt raises a
non-transient error (no `10060` in the message, e.g. a `553`
permission/path error) is attempted exactly once and marked failed; and the
per-file record with exactly those counts appears in the job run. -/
theorem retry_bounds (ocQ : Nat → Bool) (ocF : Nat → FtpAttempt)
    (cfg : QiniuConfig) (v f : String) (files : List String)
    (oc : String → Nat → Bool) (hc : qiniuConfigComplete cfg = true) :
    ((∀ n, ocQ n = false) → qiniuTryFile ocQ = (false, 3))
    ∧ ((∀ n, ∃ s, ocF n = .err s ∧ strContains s "10060" = true) →
        ftpTryFile ocF = (false, 3))
    ∧ (∀ s, ocF 1 = .err s → strContains s "10060" = false →
        ftpTryFile ocF = (false, 1))
    ∧ (f ∈ files → eligibleFile f = true → (∀ n, oc f n = false) →
        (⟨f, v ++ "/" ++ f, 3, false⟩ : QAttempt) ∈
          (upload_to_qiniu true cfg v files oc).attempts) := by
  refine ⟨?_, ?_, ?_, ?_⟩
  · intro h
    simp [qiniuTryFile, qiniuTryFileAux, h]
  · intro h
    obtain ⟨s1, e1, t1⟩ := h 1
    obtain ⟨s2, e2, t2⟩ := h 2
    obtain ⟨s3, e3, t3⟩ := h 3
    simp [ftpTryFile, ftpTryFileAux, e1, t1, e2, t2, e3, t3]
  · intro s h1 h2
    simp [ftpTryFile, ftpTryFileAux, h1, h2]
  · intro hmem helig hfail
    have hq : qiniuTryFile (oc f) = (false, 3) := by
      simp [qiniuTryFile, qiniuTryFileAux, hfail]
    simp only [upload_to_qiniu, hc, Bool.not_true, Bool.false_eq_true, if_false,
      Bool.not_false, if_true, List.mem_map]
    refine ⟨f, List.mem_filter.mpr ⟨hmem, helig⟩, ?_⟩
    rw [hq]

/-- Claim C3 (witness): the retry bounds evaluated at concrete outcomes. -/
theorem retry_bounds_witness :
    qiniuTryFile (fun _ => false) = (false, 3)
      ∧ ftpTryFile (fun _ => .err "timeout 10060") = (false, 3)
      ∧ ftpTryFile (fun _ => .err "553 denied") = (false, 1)
      ∧ (⟨"b.ts", "job/b.ts", 3, false⟩ : QAttempt) ∈
        (upload_to_qiniu true ⟨"ak", "sk", "bkt"⟩ "job" ["b.ts"]
          (fun _ _ => false)).attempts := by
  have h := retry_bounds (fun _ => false) (fun _ => .err "timeout 10060")
    ⟨"ak", "sk", "bkt"⟩ "job" "b.ts" ["b.ts"] (fun _ _ => false) (by decide)
  have h2 := retry_bounds (fun _ => false) (fun _ => .err "553 denied")
    ⟨"ak", "sk", "bkt"⟩ "job" "b.ts" ["b.ts"] (fun _ _ => false) (by decide)
  exact ⟨h.1 (fun _ => rfl),
    h.2.1 (fun _ => ⟨"timeout 10060", rfl, by decide⟩),
    h2.2.2.1 "553 denied" rfl (by decide),
    h.2.2.2 (by decide) (by decide) (fun _ => rfl)⟩

/-- Claim C4 (counterexample): a job directory holding one segment file and
TWO manifest files is accepted by the cache scan and by
`validate_cache_directory`, contradicting the claim that inclusion requires
exactly one `.m3u8` file. -/
theorem scan_accepts_two_manifests :
    scanCache [⟨"d", ["a.ts", "x.m3u8", "y.m3u8"]⟩] = ["d"]
      ∧ validate_cache_directory true ["a.ts", "x.m3u8", "y.m3u8"] = true
      ∧ (["a.ts", "x.m3u8", "y.m3u8"].filter
          (fun f => pyEndsWith f ".m3u8")).length = 2 := by
  decide

/-- Claim C4 (amended): a job directory is included in the cache scan, and
accepted by `validate_cache_directory`, if and only if it contains at least
one `.ts` file and at least one `.m3u8` file (one or more manifests, not
exactly one); every directory without both kinds is excluded. -/
theorem scan_requires_ts_and_m3u8 (root : List CacheDir) (nm : String)
    (isDir : Bool) (fs : List String) :
    (nm ∈ scanCache root ↔ ∃ files, (⟨nm, files⟩ : CacheDir) ∈ root ∧
      dirHasTs ⟨nm, files⟩ = true ∧ dirHasM3u8 ⟨nm, files⟩ = true)
    ∧ (validate_cache_directory isDir fs = true ↔ (isDir = true ∧
      (fs.filter (fun f => pyEndsWith f ".ts")) ≠ [] ∧
      (fs.filter (fun f => pyEndsWith f ".m3u8")) ≠ [])) := by
  constructor
  · simp only [scanCache, List.mem_map, List.mem_filter, Bool.and_eq_true]
    constructor
    · rintro ⟨⟨dnm, dfs⟩, ⟨hmem, hts, hm⟩, rfl⟩
      exact ⟨dfs, hmem, hts, hm⟩
    · rintro ⟨files, hmem, hts, hm⟩
      exact ⟨⟨nm, files⟩, ⟨hmem, hts, hm⟩, rfl⟩
  · unfold validate_cache_directory
    simp only [Bool.and_eq_true, decide_eq_true_eq, gt_iff_lt, List.length_pos]
    tauto

/-- Claim C5 (confirmed): if establishing the backend connection fails —
for Qiniu the SDK is missing or the credentials are incomplete, for FTP
`connect_ftp` returns `None` — the upload function returns the falsy
failure result with zero files counted and an empty transfer trace: no
`put_file_v2` / `storbinary` call is made for the job. -/
theorem connect_failure_aborts_job (cfg : QiniuConfig) (v : String)
    (files : List String) (oc : String → Nat → Bool) (mkdirOk : Bool)
    (up jn pwd : String) (files2 : List String)
    (ocF : String → Nat → FtpAttempt) :
    (upload_to_qiniu false cfg v files oc = ⟨false, 0, 0, []⟩)
    ∧ (qiniuConfigComplete cfg = false →
        upload_to_qiniu true cfg v files oc = ⟨false, 0, 0, []⟩)
    ∧ (upload_to_ftp false mkdirOk up jn pwd files2 ocF =
        ⟨false, 0, 0, none, []⟩) := by
  refine ⟨by simp [upload_to_qiniu], fun h => by simp [upload_to_qiniu, h],
    by simp [upload_to_ftp]⟩

/-- Claim C5 (witness): the abort law evaluated at a concrete input with
incomplete credentials (empty secret key). -/
theorem connect_failure_aborts_job_witness :
    upload_to_qiniu true ⟨"ak", "", "bkt"⟩ "job" ["a.ts"] (fun _ _ => true) =
      ⟨false, 0, 0, []⟩ :=
  (connect_failure_aborts_job ⟨"ak", "", "bkt"⟩ "job" ["a.ts"] (fun _ _ => true)
    true "v" "job" "/" [] (fun _ _ => .ok)).2.1 (by decide)

/-- Claim C6 (counterexample): the collapse of the FTP base path to just
the job name happens only for the specific placeholder `'v'` (besides `''`
and `'.'`), not for every single-letter base path: with base path `"a"`
(one letter) the remote target is `"a/job"`, not `"job"`. -/
theorem single_letter_base_path_not_collapsed :
    ftpRemoteDir "a" "job" = "a/job"
      ∧ (pyStripSlash "a").length = 1
      ∧ ftpRemoteDir "v" "job" = "job" := by
  constructor
  · rfl
  · exact ⟨rfl, rfl⟩

/-- Claim C6 (amended): the remote target is computed deterministically
from the job directory's base name.  FTP: the configured base path is
stripped of slashes; if the result is `''`, `'.'` or the specific
placeholder `'v'` the target collapses to just the job name, otherwise it
is the stripped base path + `'/'` + job name.  Qiniu: each eligible file is
stored under the key `jobName ++ "/" ++ filename`. -/
theorem remote_target_law (up v : String) (cfg : QiniuConfig)
    (files : List String) (oc : String → Nat → Bool)
    (hc : qiniuConfigComplete cfg = true) :
    ((pyStripSlash up = "" ∨ pyStripSlash up = "." ∨ pyStripSlash up = "v") →
      ftpRemoteDir up v = v)
    ∧ (pyStripSlash up ≠ "" → pyStripSlash up ≠ "." → pyStripSlash up ≠ "v" →
      ftpRemoteDir up v = pyStripSlash up ++ "/" ++ v)
    ∧ ((upload_to_qiniu true cfg v files oc).attempts.map (fun a => a.key) =
      (files.filter eligibleFile).map (fun f => v ++ "/" ++ f)) := by
  refine ⟨fun h => ?_, fun h1 h2 h3 => ?_, ?_⟩
  · rcases h with h | h | h <;> simp [ftpRemoteDir, h]
  · simp [ftpRemoteDir, h1, h2, h3]
  · simp [upload_to_qiniu, hc, List.map_map, Function.comp]

/-- Claim C6 (witness): the amended target law evaluated at concrete
inputs. -/
theorem remote_target_law_witness :
    ftpRemoteDir "/v/" "job" = "job"
      ∧ ftpRemoteDir "media/out" "job" = "media/out/job"
      ∧ ((upload_to_qiniu true ⟨"ak", "sk", "bkt"⟩ "job" ["a.ts", "skip.txt"]
          (fun _ _ => true)).attempts.map (fun a => a.key) = ["job/a.ts"]) := by
  have h1 := remote_target_law "/v/" "job" ⟨"ak", "sk", "bkt"⟩
    ["a.ts", "skip.txt"] (fun _ _ => true) (by decide)
  have h2 := remote_target_law "media/out" "job" ⟨"ak", "sk", "bkt"⟩
    ["a.ts", "skip.txt"] (fun _ _ => true) (by decide)
  refine ⟨h1.1 (by decide), ?_, ?_⟩
  · rw [h2.2.1 (by decide) (by decide) (by decide)]
    decide
  · rw [h2.2.2]
    decide

/-- Claim C7 (counterexample): in `set_default_cache_path`, the fallback
branch runs `os.makedirs` on `cwd/cache` with no surrounding handler, so in
the state where the per-user application-data directory cannot be created
AND the fallback directory creation also fails, the exception propagates
past the caller — contradicting "the fallback path itself never propagating
an exception". -/
theorem default_cache_fallback_error_propagates :
    set_default_cache_path "C:/Users/u" "D:/app" false false =
      .error "os.makedirs failed in fallback" := rfl

/-- Claim C7 (amended): default cache-root resolution prefers the per-user
application-data directory; when that is unavailable or uncreatable it
falls back to a `cache` subdirectory of the current working directory; but
if creating the fallback directory itself fails, the exception escapes the
function (the fallback is not exception-safe). -/
theorem default_cache_path_resolution (home cwd : String) (a b : Bool) :
    (a = true → set_default_cache_path home cwd a b =
      .ok (home ++ "/AppData/Local/VideoSliceUploader/Cache"))
    ∧ (a = false → b = true →
      set_default_cache_path home cwd a b = .ok (cwd ++ "/cache"))
    ∧ (a = false → b = false →
      set_default_cache_path home cwd a b =
        .error "os.makedirs failed in fallback") := by
  refine ⟨fun h => by simp [set_default_cache_path, h],
    fun h1 h2 => by simp [set_default_cache_path, h1, h2],
    fun h1 h2 => by simp [set_default_cache_path, h1, h2]⟩

/-- Claim C7 (witness): the resolution law evaluated at concrete states. -/
theorem default_cache_path_resolution_witness :
    set_default_cache_path "/home/u" "/srv" true false =
        .ok "/home/u/AppData/Local/VideoSliceUploader/Cache"
      ∧ set_default_cache_path "/home/u" "/srv" false true = .ok "/srv/cache" :=
  ⟨(default_cache_path_resolution "/home/u" "/srv" true false).1 rfl,
    (default_cache_path_resolution "/home/u" "/srv" false true).2.1 rfl rfl⟩

/-- Claim C8 (code bug, per the claim's requirement): the keep-alive
background thread of `connect_ftp` is never cancelled.  Its loop condition
is the constant `True`, so it evaluates to `true` even when the session is
closed, and the thread keeps issuing one NOOP attempt per 30-second
iteration after `ftp.quit()` — here, 10 iterations of a never-open session
still issue 10 attempts.  The claim (and the spec) require the task to be
cancelled when the session ends; the code merely abandons a daemon thread,
which the spec's own design notes call a leak. -/
theorem keepalive_survives_session_close :
    ftpKeepAliveLoopCondition false = true
      ∧ keepAliveNoopCount (fun _ => false) 10 = 10 := by
  decide

/-- Claim C9 (counterexample): `load_config` reads the storage-type
selector with `config_data.get("storage_type", "ftp")`, so a valid document
that omits the `storage_type` key still overwrites the in-memory selector:
from a prior state with `use_qiniu = True`, loading an empty document
flips it to `False`, contradicting "every configuration field whose key is
absent from the document is left unchanged". -/
theorem storage_type_overwritten_when_absent :
    (load_config sampleState (.doc emptyDoc)).1.useQiniu = false
      ∧ sampleState.useQiniu = true := by
  decide

/-- Claim C9 (amended): on a valid document, every configuration field
EXCEPT the storage-type selector keeps its prior in-memory value when its
key is absent; the storage-type selector is always assigned, defaulting to
FTP when the key is absent.  An unreadable or malformed document is
reported as an error and leaves every field unchanged; a missing file only
warns and also changes nothing. -/
theorem load_config_frame_law (st : ConfigState) (d : ConfigDoc) :
    (d.segment_duration = none →
      (load_config st (.doc d)).1.segmentDuration = st.segmentDuration)
    ∧ (d.quality_crf = none →
      (load_config st (.doc d)).1.qualityCrf = st.qualityCrf)
    ∧ (d.cache_path = none →
      (load_config st (.doc d)).1.cachePath = st.cachePath)
    ∧ (d.server_ip = none →
      (load_config st (.doc d)).1.serverIp = st.serverIp)
    ∧ (d.server_port = none →
      (load_config st (.doc d)).1.serverPort = st.serverPort)
    ∧ (d.username = none →
      (load_config st (.doc d)).1.username = st.username)
    ∧ (d.password = none →
      (load_config st (.doc d)).1.password = st.password)
    ∧ (d.upload_path = none →
      (load_config st (.doc d)).1.uploadPath = st.uploadPath)
    ∧ (d.use_ssl = none →
      (load_config st (.doc d)).1.useSsl = st.useSsl)
    ∧ (d.qiniu_access_key = none →
      (load_config st (.doc d)).1.qiniuAccessKey = st.qiniuAccessKey)
    ∧ (d.qiniu_secret_key = none →
      (load_config st (.doc d)).1.qiniuSecretKey = st.qiniuSecretKey)
    ∧ (d.qiniu_bucket_name = none →
      (load_config st (.doc d)).1.qiniuBucketName = st.qiniuBucketName)
    ∧ (d.qiniu_domain = none →
      (load_config st (.doc d)).1.qiniuDomain = st.qiniuDomain)
    ∧ ((load_config st (.doc d)).1.useQiniu =
      (d.storage_type.getD "ftp" == "qiniu"))
    ∧ (load_config st .malformed = (st, true))
    ∧ (load_config st .missing = (st, false)) := by
  cases hq : (d.storage_type.getD "ftp" == "qiniu") <;>
    exact ⟨fun h => by simp [load_config, h, hq],
      fun h => by simp [load_config, h, hq],
      fun h => by simp [load_config, h, hq],
      fun h => by simp [load_config, h, hq],
      fun h => by simp [load_config, h, hq],
      fun h => by simp [load_config, h, hq],
      fun h => by simp [load_config, h, hq],
      fun h => by simp [load_config, h, hq],
      fun h => by simp [load_config, h, hq],
      fun h => by simp [load_config, h, hq],
      fun h => by simp [load_config, h, hq],
      fun h => by simp [load_config, h, hq],
      fun h => by simp [load_config, h, hq],
      by simp [load_config, hq],
      rfl, rfl⟩

/-- Claim C9 (witness): the frame law evaluated at a concrete state and a
document with every key absent. -/
theorem load_config_frame_law_witness :
    (load_config sampleState (.doc emptyDoc)).1.serverIp = sampleState.serverIp
      ∧ (load_config sampleState (.doc emptyDoc)).1.qiniuAccessKey =
        sampleState.qiniuAccessKey
      ∧ load_config sampleState .malformed = (sampleState, true) :=
  ⟨(load_config_frame_law sampleState emptyDoc).2.2.2.1 rfl,
    (load_config_frame_law sampleState emptyDoc).2.2.2.2.2.2.2.2.2.1 rfl,
    (load_config_frame_law sampleState emptyDoc).2.2.2.2.2.2.2.2.2.2.2.2.2.2.1⟩

/-- Claim C10 (confirmed, implicit edge case): for a job directory with no
`.ts` or `.m3u8` files, `upload_to_qiniu` makes no transfer attempt and
returns the full-success outcome `True` (`files_uploaded == total_files`
holds at `0 == 0`), and `process_video` then invokes the cleanup that
deletes the job directory as if the upload had succeeded. -/
theorem empty_job_uploads_nothing_and_cleans (cfg : QiniuConfig) (v : String)
    (files : List String) (oc : String → Nat → Bool) (root : List CacheDir)
    (jobName : String) (hc : qiniuConfigComplete cfg = true)
    (hempty : files.filter eligibleFile = []) :
    upload_to_qiniu true cfg v files oc = ⟨true, 0, 0, []⟩
      ∧ cleanupInvoked (upload_to_qiniu true cfg v files oc).ok = true
      ∧ processVideoCleanupStep root jobName
          (upload_to_qiniu true cfg v files oc).ok =
        cleanup_local_files root jobName := by
  have hrun : upload_to_qiniu true cfg v files oc = ⟨true, 0, 0, []⟩ := by
    simp [upload_to_qiniu, hc, hempty, qiniuJobResult]
  refine ⟨hrun, ?_, ?_⟩
  · rw [hrun]
    rfl
  · rw [hrun]
    rfl

/-- Claim C10 (witness): the empty-job law evaluated at a directory whose
only file is ineligible. -/
theorem empty_job_uploads_nothing_and_cleans_witness :
    upload_to_qiniu true ⟨"ak", "sk", "bkt"⟩ "job" ["notes.txt"]
        (fun _ _ => false) = ⟨true, 0, 0, []⟩
      ∧ processVideoCleanupStep [⟨"job", ["notes.txt"]⟩] "job"
          (upload_to_qiniu true ⟨"ak", "sk", "bkt"⟩ "job" ["notes.txt"]
            (fun _ _ => false)).ok =
        cleanup_local_files [⟨"job", ["notes.txt"]⟩] "job" :=
  ⟨(empty_job_uploads_nothing_and_cleans ⟨"ak", "sk", "bkt"⟩ "job"
      ["notes.txt"] (fun _ _ => false) [⟨"job", ["notes.txt"]⟩] "job"
      (by decide) (by decide)).1,
    (empty_job_uploads_nothing_and_cleans ⟨"ak", "sk", "bkt"⟩ "job"
      ["notes.txt"] (fun _ _ => false) [⟨"job", ["notes.txt"]⟩] "job"
      (by decide) (by decide)).2.2⟩
